import Mathlib

/-!
Shallow embedding of the credit-ledger / redeem-code core of the
`osint-father-bot` repository (src/database.py, plus the registration
block of `start_command` in src/main.py).

Modelling conventions:
* SQL tables become fields of a `Store` record: the `users` and
  `redeem_codes` tables are maps from their primary key to an optional
  row; the `redeem_logs` table (the Claim table) is a list of rows, so
  that the UNIQUE(user_id, code) constraint and `INSERT OR IGNORE` /
  `ON CONFLICT DO NOTHING` are modelled explicitly and uniqueness of
  claims is a provable invariant rather than true by construction.
* Timestamps (`datetime.now()`, `created_date`, `joined_date`,
  `claimed_date`) are modelled as integers on one common clock, with
  `timedelta(minutes=m)` as addition of `m`; each operation that calls
  `datetime.now()` receives the current time `now` as a parameter.
* `is_banned` and `is_active` are INTEGER columns in the schema (0/1);
  they are modelled as `Int`, with Python truthiness `not is_active`
  becoming `isActive = 0`.
* Operations whose SQLite and PostgreSQL branches execute the same
  statements are modelled once; `create_redeem_code` and
  `redeem_code_db`, whose branches genuinely differ, are modelled twice,
  once per engine, directly from the corresponding branch.
* A transaction that may fail is parameterized by `txnFail : Option String`
  (`none` = the transaction commits, `some e` = the underlying engine
  raises an error with message `e`). A Python function that can either
  return a value or let an exception escape to its caller returns a
  `PyResult`.
-/

namespace OsintBot

/-- One row of the `users` table
(user_id, username, credits, joined_date, referrer_id, is_banned,
total_earned, last_active); the key `user_id` is the map index. -/
structure UserRow where
  username : Option String
  credits : Int
  joinedDate : Int
  referrerId : Option Int
  isBanned : Int
  totalEarned : Int
  lastActive : Int
deriving Repr, DecidableEq

/-- One row of the `redeem_codes` table
(code, amount, max_uses, current_uses, expiry_minutes, created_date,
is_active); the key `code` is the map index. -/
structure CodeRow where
  amount : Int
  maxUses : Int
  currentUses : Int
  expiryMinutes : Option Int
  createdDate : Int
  isActive : Int
deriving Repr, DecidableEq

/-- One row of the `redeem_logs` table (a Claim row). -/
structure ClaimRow where
  userId : Int
  code : String
  claimedDate : Int
deriving Repr, DecidableEq

/-- The durable state: the three tables the ledger core reads and writes. -/
@[ext]
structure Store where
  users : Int → Option UserRow
  codes : String → Option CodeRow
  claims : List ClaimRow

/-- The freshly initialized database: all tables empty. -/
def emptyStore : Store :=
  { users := fun _ => none, codes := fun _ => none, claims := [] }

/-- Models `UPDATE users SET ... WHERE user_id = ?`: applies `f` to the
row with key `uid` if it exists, and is a no-op otherwise (an UPDATE
matching zero rows succeeds and changes nothing). -/
def updateUserRow (uid : Int) (f : UserRow → UserRow) (st : Store) : Store :=
  { st with users := fun i => if i = uid then (st.users i).map f else st.users i }

/-- Models `UPDATE redeem_codes SET ... WHERE code = ?`. -/
def updateCodeRow (code : String) (f : CodeRow → CodeRow) (st : Store) : Store :=
  { st with codes := fun c => if c = code then (st.codes c).map f else st.codes c }

/-- Models `SELECT 1 FROM redeem_logs WHERE user_id = ? AND code = ?`:
whether a Claim row for the pair already exists. -/
def claimExists (uid : Int) (code : String) (claims : List ClaimRow) : Bool :=
  claims.any (fun cl => cl.userId == uid && cl.code == code)

/-- Models `INSERT OR IGNORE` / `ON CONFLICT DO NOTHING` into
`redeem_logs` under its UNIQUE(user_id, code) constraint: the row is
appended unless a row with the same (user_id, code) pair is present. -/
def insertClaimOrIgnore (row : ClaimRow) (claims : List ClaimRow) : List ClaimRow :=
  if claimExists row.userId row.code claims then claims else claims ++ [row]

/-- `database.add_user`: identical under both engines. Checks for an
existing row first and returns unchanged if found; otherwise inserts
(user_id, username, 5, now, referrer_id, 0, 0, now). -/
def add_user (uid : Int) (uname : Option String) (ref : Option Int) (now : Int)
    (st : Store) : Store :=
  match st.users uid with
  | some _ => st
  | none =>
      { st with users := fun i =>
          if i = uid then some ⟨uname, 5, now, ref, 0, 0, now⟩ else st.users i }

/-- `database.update_credits`: identical under both engines. A positive
amount is added to both `credits` and `total_earned`; a non-positive
amount is added to `credits` only. -/
def update_credits (uid amount : Int) (st : Store) : Store :=
  if amount > 0 then
    updateUserRow uid
      (fun r => { r with credits := r.credits + amount,
                         totalEarned := r.totalEarned + amount }) st
  else
    updateUserRow uid (fun r => { r with credits := r.credits + amount }) st

/-- `database.set_ban_status`: identical under both engines. -/
def set_ban_status (uid status : Int) (st : Store) : Store :=
  updateUserRow uid (fun r => { r with isBanned := status }) st

/-- `database.reset_user_credits`: identical under both engines. -/
def reset_user_credits (uid : Int) (st : Store) : Store :=
  updateUserRow uid (fun r => { r with credits := 0 }) st

/-- `database.delete_user`: identical statement sequence under both
engines: delete the user row, delete the user's redeem_logs rows, then
set `referrer_id = NULL` on every remaining row whose referrer_id was
the deleted user. -/
def delete_user (uid : Int) (st : Store) : Store :=
  { users := fun i =>
      if i = uid then none
      else (st.users i).map
        (fun r => if r.referrerId = some uid then { r with referrerId := none } else r),
    codes := st.codes,
    claims := st.claims.filter (fun cl => !(cl.userId == uid)) }

/-- `database.bulk_update_credits`: one `update_credits` per listed user,
inside a single transaction (atomicity is implicit in the sequential
model). -/
def bulk_update_credits (uids : List Int) (amount : Int) (st : Store) : Store :=
  uids.foldl (fun s u => update_credits u amount s) st

/-- `database.create_redeem_code`, SQLite branch: `INSERT OR REPLACE`
with a column list that omits `current_uses`. SQLite REPLACE deletes any
conflicting row and inserts the new one, so the omitted `current_uses`
column takes its schema DEFAULT 0. -/
def create_redeem_code_sqlite (code : String) (amount maxUses : Int)
    (expiryMinutes : Option Int) (now : Int) (st : Store) : Store :=
  { st with codes := fun c =>
      if c = code then some ⟨amount, maxUses, 0, expiryMinutes, now, 1⟩
      else st.codes c }

/-- `database.create_redeem_code`, PostgreSQL branch: `INSERT ... ON
CONFLICT (code) DO UPDATE` listing amount, max_uses, expiry_minutes,
created_date and is_active, so an existing row keeps its
`current_uses`. -/
def create_redeem_code_pg (code : String) (amount maxUses : Int)
    (expiryMinutes : Option Int) (now : Int) (st : Store) : Store :=
  { st with codes := fun c =>
      if c = code then
        some (match st.codes code with
          | none => ⟨amount, maxUses, 0, expiryMinutes, now, 1⟩
          | some old => ⟨amount, maxUses, old.currentUses, expiryMinutes, now, 1⟩)
      else st.codes c }

/-- The tagged values `redeem_code_db` returns: the strings
"already_claimed", "invalid", "inactive", "limit_reached", "expired",
the granted integer amount, and the SQLite branch's "error: ..."
string. -/
inductive RedeemResult where
  | alreadyClaimed
  | invalid
  | inactive
  | limitReached
  | expired
  | granted (amount : Int)
  | errorMsg (s : String)
deriving Repr, DecidableEq

/-- The outcome of calling a Python coroutine: either a returned value
or an exception that escaped to the caller. -/
inductive PyResult (α : Type) where
  | ret (a : α)
  | exn (msg : String)
deriving Repr, DecidableEq

/-- Whether a `PyResult` is a returned (tagged) value rather than an
escaped exception. -/
def PyResult.isTagged : PyResult α → Bool
  | .ret _ => true
  | .exn _ => false

/-- The expiry test of `redeem_code_db` (both branches):
`expiry_minutes is not None and expiry_minutes > 0` and
`datetime.now() > created_dt + timedelta(minutes=expiry_minutes)`. -/
def isExpiredCheck (expiryMinutes : Option Int) (created now : Int) : Bool :=
  match expiryMinutes with
  | none => false
  | some e => if e > 0 then decide (created + e < now) else false

/-- The four statements inside the SQLite claim transaction, in source
order: increment the code's `current_uses`; add the amount to the user's
`credits`; add the amount to the user's `total_earned`; `INSERT OR
IGNORE` the claim row. -/
def sqliteClaimTxn (uid : Int) (code : String) (now : Int) (data : CodeRow)
    (st : Store) : Store :=
  let st1 : Store :=
    { st with codes := fun c =>
        if c = code then some { data with currentUses := data.currentUses + 1 }
        else st.codes c }
  let st2 := updateUserRow uid
    (fun r => { r with credits := r.credits + data.amount }) st1
  let st3 := updateUserRow uid
    (fun r => { r with totalEarned := r.totalEarned + data.amount }) st2
  { st3 with claims := insertClaimOrIgnore ⟨uid, code, now⟩ st3.claims }

/-- The three statements inside the PostgreSQL claim transaction, in
source order: increment the code's `current_uses`; one combined UPDATE
adding the amount to `credits` and `total_earned`; `INSERT ... ON
CONFLICT DO NOTHING` of the claim row. -/
def pgClaimTxn (uid : Int) (code : String) (now : Int) (data : CodeRow)
    (st : Store) : Store :=
  let st1 : Store :=
    { st with codes := fun c =>
        if c = code then some { data with currentUses := data.currentUses + 1 }
        else st.codes c }
  let st2 := updateUserRow uid
    (fun r => { r with credits := r.credits + data.amount,
                       totalEarned := r.totalEarned + data.amount }) st1
  { st2 with claims := insertClaimOrIgnore ⟨uid, code, now⟩ st2.claims }

/-- `database.redeem_code_db`, SQLite branch. Checks in source order:
already-claimed, missing code, inactive, limit reached, expired; then a
BEGIN/COMMIT transaction performing the four mutations (increment
current_uses; add amount to credits; add amount to total_earned; INSERT
OR IGNORE the claim row). A failing transaction is rolled back and the
string `"error: " ++ e` is returned; every path returns a value (the
bare `except` catches everything). -/
def redeem_code_sqlite (uid : Int) (code : String) (now : Int)
    (txnFail : Option String) (st : Store) : Store × PyResult RedeemResult :=
  if claimExists uid code st.claims then (st, .ret .alreadyClaimed)
  else
    match st.codes code with
    | none => (st, .ret .invalid)
    | some data =>
      if data.isActive = 0 then (st, .ret .inactive)
      else if data.currentUses ≥ data.maxUses then (st, .ret .limitReached)
      else if isExpiredCheck data.expiryMinutes data.createdDate now then
        (st, .ret .expired)
      else
        match txnFail with
        | some e => (st, .ret (.errorMsg ("error: " ++ e)))
        | none => (sqliteClaimTxn uid code now data st, .ret (.granted data.amount))

/-- `database.redeem_code_db`, PostgreSQL branch. Same checks in the
same order; then a `conn.transaction()` block performing the mutations
(increment current_uses; one combined UPDATE of credits and
total_earned; INSERT ... ON CONFLICT DO NOTHING). There is no
try/except: a failing transaction is rolled back by the context manager
and the exception propagates to the caller. -/
def redeem_code_pg (uid : Int) (code : String) (now : Int)
    (txnFail : Option String) (st : Store) : Store × PyResult RedeemResult :=
  if claimExists uid code st.claims then (st, .ret .alreadyClaimed)
  else
    match st.codes code with
    | none => (st, .ret .invalid)
    | some data =>
      if data.isActive = 0 then (st, .ret .inactive)
      else if data.currentUses ≥ data.maxUses then (st, .ret .limitReached)
      else if isExpiredCheck data.expiryMinutes data.createdDate now then
        (st, .ret .expired)
      else
        match txnFail with
        | some e => (st, .exn e)
        | none => (pgClaimTxn uid code now data st, .ret (.granted data.amount))

/-- `database.deactivate_code`: identical under both engines. -/
def deactivate_code (code : String) (st : Store) : Store :=
  updateCodeRow code (fun r => { r with isActive := 0 }) st

/-- `database.delete_redeem_code`: identical under both engines. -/
def delete_redeem_code (code : String) (st : Store) : Store :=
  { st with codes := fun c => if c = code then none else st.codes c }

/-- Python `str.split("_")` on the character list of a string. -/
def splitOnUnderscore : List Char → List (List Char)
  | [] => [[]]
  | c :: rest =>
    let r := splitOnUnderscore rest
    if c = '_' then [] :: r
    else
      match r with
      | [] => [[c]]
      | h :: t => (c :: h) :: t

/-- The digit run of a decimal numeral, or `none` if empty or containing
a non-digit. -/
def digitsOf (l : List Char) : Option Nat :=
  if l = [] then none
  else
    l.foldl
      (fun acc c =>
        match acc with
        | none => none
        | some n => if c.isDigit then some (n * 10 + (c.toNat - 48)) else none)
      (some 0)

/-- Python `int(...)` on a string given as a character list: an optional
sign followed by decimal digits; anything else raises (here: `none`). -/
def pyInt (l : List Char) : Option Int :=
  match l with
  | '-' :: rest => (digitsOf rest).map (fun n => -(n : Int))
  | '+' :: rest => (digitsOf rest).map (fun n => (n : Int))
  | _ => (digitsOf l).map (fun n => (n : Int))

/-- The referrer extraction of `main.start_command`: an argument string
starting with `"ref_"` is split on `"_"`, piece 1 is converted with
`int(...)` (any failure is swallowed by the bare `except: pass`, leaving
no referrer), and a self-referral is discarded. -/
def parseReferrer (uid : Int) (args : Option String) : Option Int :=
  match args with
  | none => none
  | some s =>
    if "ref_".data.isPrefixOf s.data then
      match (splitOnUnderscore s.data).get? 1 with
      | none => none
      | some piece =>
        match pyInt piece with
        | none => none
        | some r => if r = uid then none else some r
    else none

/-- The registration block of `main.start_command` (lines 317-335): if
no account row exists, parse the referrer from the deep-link argument,
`add_user`, and if a (truthy) referrer id was parsed, credit it 3 via
`update_credits`. -/
def start_register (uid : Int) (uname : Option String) (args : Option String)
    (now : Int) (st : Store) : Store :=
  match st.users uid with
  | some _ => st
  | none =>
    match parseReferrer uid args with
    | some r =>
        if r = 0 then add_user uid uname (some r) now st
        else update_credits r 3 (add_user uid uname (some r) now st)
    | none => add_user uid uname none now st

/-- Which physical engine executes an operation whose two branches
differ. -/
inductive Engine where
  | sqlite
  | pg
deriving Repr, DecidableEq

/-- The mutating core operations, as invocable steps (each carries the
clock value and, for a claim, the transaction-failure oracle). -/
inductive Op where
  | addUser (uid : Int) (uname : Option String) (ref : Option Int) (now : Int)
  | updateCredits (uid amount : Int)
  | setBan (uid status : Int)
  | resetCredits (uid : Int)
  | deleteUser (uid : Int)
  | createCode (eng : Engine) (code : String) (amount maxUses : Int)
      (expiryMinutes : Option Int) (now : Int)
  | redeem (eng : Engine) (uid : Int) (code : String) (now : Int)
      (txnFail : Option String)
  | deactivateCode (code : String)
  | deleteCode (code : String)
  | bulkUpdate (uids : List Int) (amount : Int)
  | startRegister (uid : Int) (uname : Option String) (args : Option String) (now : Int)

/-- State transition of one core operation. -/
def applyOp (op : Op) (st : Store) : Store :=
  match op with
  | .addUser uid uname ref now => add_user uid uname ref now st
  | .updateCredits uid amount => update_credits uid amount st
  | .setBan uid status => set_ban_status uid status st
  | .resetCredits uid => reset_user_credits uid st
  | .deleteUser uid => delete_user uid st
  | .createCode eng code amount maxUses em now =>
      match eng with
      | .sqlite => create_redeem_code_sqlite code amount maxUses em now st
      | .pg => create_redeem_code_pg code amount maxUses em now st
  | .redeem eng uid code now txnFail =>
      match eng with
      | .sqlite => (redeem_code_sqlite uid code now txnFail st).1
      | .pg => (redeem_code_pg uid code now txnFail st).1
  | .deactivateCode code => deactivate_code code st
  | .deleteCode code => delete_redeem_code code st
  | .bulkUpdate uids amount => bulk_update_credits uids amount st
  | .startRegister uid uname args now => start_register uid uname args now st

/-- Run a sequence of core operations from a starting state. -/
def applySeq (ops : List Op) (st : Store) : Store :=
  ops.foldl (fun s o => applyOp o s) st

/-- The per-code usage-cap invariant of the spec:
`current_uses <= max_uses` for every stored code. -/
def codeCapInv (st : Store) : Prop :=
  ∀ c r, st.codes c = some r → r.currentUses ≤ r.maxUses

/-- Decidable check that the usage cap of one code is violated. -/
def codeCapViolated (st : Store) (c : String) : Bool :=
  match st.codes c with
  | some r => decide (r.maxUses < r.currentUses)
  | none => false

/-- No two Claim rows share the same (user_id, code) pair. -/
def claimsUnique (l : List ClaimRow) : Prop :=
  l.Pairwise (fun a b => ¬(a.userId = b.userId ∧ a.code = b.code))

/-- Side condition under which a code (re)definition respects the usage
cap: the new maximum is non-negative, and on the pooled engine (which
preserves `current_uses` of an existing row) it is at least the existing
row's `current_uses`. All other operations need no condition. -/
def opOk (st : Store) : Op → Prop
  | .createCode eng code _ maxUses _ _ =>
      0 ≤ maxUses ∧
        (eng = Engine.pg → ∀ r, st.codes code = some r → r.currentUses ≤ maxUses)
  | _ => True

/-- A store holding one redeem code "C" that has already been claimed
once (amount 5, max_uses 10, current_uses 1, no expiry, created at 0,
active). -/
def storeOneUsedCode : Store :=
  { users := fun _ => none,
    codes := fun c => if c = "C" then some ⟨5, 10, 1, none, 0, 1⟩ else none,
    claims := [] }

/-- A store holding user 7 (5 credits, nothing earned) and a fresh
active code "C" granting 5 credits with max_uses 10 and no expiry. -/
def storeUserAndCode : Store :=
  { users := fun i => if i = 7 then some ⟨some "u", 5, 0, none, 0, 0, 0⟩ else none,
    codes := fun c => if c = "C" then some ⟨5, 10, 0, none, 0, 1⟩ else none,
    claims := [] }

/-- A store holding user 1, user 2 referred by user 1, and one claim row
for each of them on code "C". -/
def storeTwoUsers : Store :=
  { users := fun i =>
      if i = 1 then some ⟨some "a", 5, 0, none, 0, 0, 0⟩
      else if i = 2 then some ⟨some "b", 8, 0, some 1, 0, 3, 0⟩
      else none,
    codes := fun _ => none,
    claims := [⟨1, "C", 0⟩, ⟨2, "C", 1⟩] }

/-- A store holding a single claim row for user 1 on code "C". -/
def storeOneClaim : Store :=
  { users := fun _ => none,
    codes := fun _ => none,
    claims := [⟨1, "C", 0⟩] }

/-- An operation sequence on the pooled engine: define "C" with
max_uses 2, have users 1 and 2 claim it, then redefine it with
max_uses 1 (which keeps current_uses at 2). -/
def capBreakOps : List Op :=
  [ .createCode .pg "C" 10 2 none 0,
    .redeem .pg 1 "C" 0 none,
    .redeem .pg 2 "C" 0 none,
    .createCode .pg "C" 10 1 none 0 ]

/-! ### Helper lemmas -/

theorem updateUserRow_codes (uid : Int) (f : UserRow → UserRow) (st : Store) :
    (updateUserRow uid f st).codes = st.codes := rfl

theorem updateUserRow_claims (uid : Int) (f : UserRow → UserRow) (st : Store) :
    (updateUserRow uid f st).claims = st.claims := rfl

theorem updateUserRow_users_ne (uid : Int) (f : UserRow → UserRow) (st : Store)
    (j : Int) (h : j ≠ uid) : (updateUserRow uid f st).users j = st.users j := by
  simp [updateUserRow, h]

theorem updateUserRow_absent (uid : Int) (f : UserRow → UserRow) (st : Store)
    (h : st.users uid = none) : updateUserRow uid f st = st := by
  ext1
  · funext i
    by_cases hi : i = uid
    · subst hi; simp [updateUserRow, h]
    · simp [updateUserRow, hi]
  · rfl
  · rfl

theorem update_credits_codes (uid amount : Int) (st : Store) :
    (update_credits uid amount st).codes = st.codes := by
  unfold update_credits; split <;> rfl

theorem update_credits_claims (uid amount : Int) (st : Store) :
    (update_credits uid amount st).claims = st.claims := by
  unfold update_credits; split <;> rfl

theorem update_credits_users_ne (uid amount : Int) (st : Store) (j : Int)
    (h : j ≠ uid) : (update_credits uid amount st).users j = st.users j := by
  unfold update_credits; split <;> exact updateUserRow_users_ne _ _ _ _ h

theorem update_credits_absent (uid amount : Int) (st : Store)
    (h : st.users uid = none) : update_credits uid amount st = st := by
  unfold update_credits; split <;> exact updateUserRow_absent _ _ _ h

theorem add_user_codes (uid : Int) (uname : Option String) (ref : Option Int)
    (now : Int) (st : Store) : (add_user uid uname ref now st).codes = st.codes := by
  unfold add_user; split <;> rfl

theorem add_user_claims (uid : Int) (uname : Option String) (ref : Option Int)
    (now : Int) (st : Store) : (add_user uid uname ref now st).claims = st.claims := by
  unfold add_user; split <;> rfl

theorem add_user_users_ne (uid : Int) (uname : Option String) (ref : Option Int)
    (now : Int) (st : Store) (j : Int) (h : j ≠ uid) :
    (add_user uid uname ref now st).users j = st.users j := by
  unfold add_user; split
  · rfl
  · simp [h]

theorem bulk_update_credits_codes (uids : List Int) (amount : Int) (st : Store) :
    (bulk_update_credits uids amount st).codes = st.codes := by
  induction uids generalizing st with
  | nil => rfl
  | cons u us ih =>
      simpa [bulk_update_credits, List.foldl_cons] using
        (ih (update_credits u amount st)).trans (update_credits_codes u amount st)

theorem bulk_update_credits_claims (uids : List Int) (amount : Int) (st : Store) :
    (bulk_update_credits uids amount st).claims = st.claims := by
  induction uids generalizing st with
  | nil => rfl
  | cons u us ih =>
      simpa [bulk_update_credits, List.foldl_cons] using
        (ih (update_credits u amount st)).trans (update_credits_claims u amount st)

theorem start_register_codes (uid : Int) (uname : Option String)
    (args : Option String) (now : Int) (st : Store) :
    (start_register uid uname args now st).codes = st.codes := by
  unfold start_register
  split
  · rfl
  · split
    · split
      · exact add_user_codes _ _ _ _ _
      · exact (update_credits_codes _ _ _).trans (add_user_codes _ _ _ _ _)
    · exact add_user_codes _ _ _ _ _

theorem start_register_claims (uid : Int) (uname : Option String)
    (args : Option String) (now : Int) (st : Store) :
    (start_register uid uname args now st).claims = st.claims := by
  unfold start_register
  split
  · rfl
  · split
    · split
      · exact add_user_claims _ _ _ _ _
      · exact (update_credits_claims _ _ _).trans (add_user_claims _ _ _ _ _)
    · exact add_user_claims _ _ _ _ _

theorem claimExists_insert_self (row : ClaimRow) (l : List ClaimRow) :
    claimExists row.userId row.code (insertClaimOrIgnore row l) = true := by
  unfold insertClaimOrIgnore
  split
  · assumption
  · simp [claimExists]

theorem claimsUnique_insert (row : ClaimRow) (l : List ClaimRow)
    (h : claimsUnique l) : claimsUnique (insertClaimOrIgnore row l) := by
  unfold insertClaimOrIgnore
  split
  · exact h
  · rename_i hne
    unfold claimsUnique at h ⊢
    rw [List.pairwise_append]
    refine ⟨h, List.pairwise_singleton _ _, ?_⟩
    intro a ha b hb
    simp only [List.mem_singleton] at hb
    subst hb
    simp only [claimExists, List.any_eq_true, Bool.and_eq_true, beq_iff_eq] at hne
    push_neg at hne
    intro hab
    exact hne a ha hab.1 hab.2

theorem claimsUnique_filter (p : ClaimRow → Bool) (l : List ClaimRow)
    (h : claimsUnique l) : claimsUnique (l.filter p) :=
  List.Pairwise.filter p h

theorem sqliteClaimTxn_codes (uid : Int) (code : String) (now : Int)
    (data : CodeRow) (st : Store) :
    (sqliteClaimTxn uid code now data st).codes = fun c =>
      if c = code then some { data with currentUses := data.currentUses + 1 }
      else st.codes c := rfl

theorem sqliteClaimTxn_claims (uid : Int) (code : String) (now : Int)
    (data : CodeRow) (st : Store) :
    (sqliteClaimTxn uid code now data st).claims
      = insertClaimOrIgnore ⟨uid, code, now⟩ st.claims := rfl

theorem pgClaimTxn_codes (uid : Int) (code : String) (now : Int)
    (data : CodeRow) (st : Store) :
    (pgClaimTxn uid code now data st).codes = fun c =>
      if c = code then some { data with currentUses := data.currentUses + 1 }
      else st.codes c := rfl

theorem pgClaimTxn_claims (uid : Int) (code : String) (now : Int)
    (data : CodeRow) (st : Store) :
    (pgClaimTxn uid code now data st).claims
      = insertClaimOrIgnore ⟨uid, code, now⟩ st.claims := rfl

theorem sqliteClaimTxn_codes_apply (uid : Int) (code : String) (now : Int)
    (data : CodeRow) (st : Store) (c : String) :
    (sqliteClaimTxn uid code now data st).codes c
      = if c = code then some { data with currentUses := data.currentUses + 1 }
        else st.codes c := rfl

theorem pgClaimTxn_codes_apply (uid : Int) (code : String) (now : Int)
    (data : CodeRow) (st : Store) (c : String) :
    (pgClaimTxn uid code now data st).codes c
      = if c = code then some { data with currentUses := data.currentUses + 1 }
        else st.codes c := rfl

theorem sqliteClaimTxn_eq_pgClaimTxn (uid : Int) (code : String) (now : Int)
    (data : CodeRow) (st : Store) :
    sqliteClaimTxn uid code now data st = pgClaimTxn uid code now data st := by
  ext1
  · funext i
    by_cases hi : i = uid
    · subst hi
      simp only [sqliteClaimTxn, pgClaimTxn, updateUserRow, eq_self_iff_true,
        if_true, Option.map_map]
      cases st.users i <;> rfl
    · simp [sqliteClaimTxn, pgClaimTxn, updateUserRow, hi]
  · rfl
  · rfl

/-- After either redeem branch, the claims table is either untouched or
extended (if absent) with the row (uid, code, now). -/
theorem redeem_sqlite_claims_cases (uid : Int) (code : String) (now : Int)
    (txnFail : Option String) (st : Store) :
    ((redeem_code_sqlite uid code now txnFail st).1).claims = st.claims
    ∨ ((redeem_code_sqlite uid code now txnFail st).1).claims
        = insertClaimOrIgnore ⟨uid, code, now⟩ st.claims := by
  unfold redeem_code_sqlite
  split
  · left; rfl
  · split
    · left; rfl
    · split
      · left; rfl
      · split
        · left; rfl
        · split
          · left; rfl
          · split
            · left; rfl
            · right; exact sqliteClaimTxn_claims _ _ _ _ _

theorem redeem_pg_claims_cases (uid : Int) (code : String) (now : Int)
    (txnFail : Option String) (st : Store) :
    ((redeem_code_pg uid code now txnFail st).1).claims = st.claims
    ∨ ((redeem_code_pg uid code now txnFail st).1).claims
        = insertClaimOrIgnore ⟨uid, code, now⟩ st.claims := by
  unfold redeem_code_pg
  split
  · left; rfl
  · split
    · left; rfl
    · split
      · left; rfl
      · split
        · left; rfl
        · split
          · left; rfl
          · split
            · left; rfl
            · right; exact pgClaimTxn_claims _ _ _ _ _

/-- The SQLite claim path can only increment `current_uses` under the
guard `current_uses < max_uses`, so it preserves the usage cap. -/
theorem redeem_sqlite_cap (uid : Int) (code : String) (now : Int)
    (txnFail : Option String) (st : Store) (h : codeCapInv st) :
    codeCapInv ((redeem_code_sqlite uid code now txnFail st).1) := by
  unfold redeem_code_sqlite
  split
  · exact h
  · split
    · exact h
    · rename_i data heq
      split
      · exact h
      · split
        · exact h
        · rename_i hcap
          split
          · exact h
          · split
            · exact h
            · intro c' r' hr'
              rw [sqliteClaimTxn_codes_apply] at hr'
              by_cases hc : c' = code
              · rw [if_pos hc] at hr'
                injection hr' with hr'
                subst hr'
                show data.currentUses + 1 ≤ data.maxUses
                omega
              · rw [if_neg hc] at hr'
                exact h _ _ hr'

/-- The PostgreSQL claim path preserves the usage cap for the same
reason. -/
theorem redeem_pg_cap (uid : Int) (code : String) (now : Int)
    (txnFail : Option String) (st : Store) (h : codeCapInv st) :
    codeCapInv ((redeem_code_pg uid code now txnFail st).1) := by
  unfold redeem_code_pg
  split
  · exact h
  · split
    · exact h
    · rename_i data heq
      split
      · exact h
      · split
        · exact h
        · rename_i hcap
          split
          · exact h
          · split
            · exact h
            · intro c' r' hr'
              rw [pgClaimTxn_codes_apply] at hr'
              by_cases hc : c' = code
              · rw [if_pos hc] at hr'
                injection hr' with hr'
                subst hr'
                show data.currentUses + 1 ≤ data.maxUses
                omega
              · rw [if_neg hc] at hr'
                exact h _ _ hr'

/-- If the pair (uid, code) already has a Claim row, both redeem
branches return "already_claimed" and leave the store untouched. -/
theorem redeem_already_claimed (uid : Int) (code : String) (now : Int)
    (txnFail : Option String) (st : Store)
    (h : claimExists uid code st.claims = true) :
    redeem_code_sqlite uid code now txnFail st = (st, .ret .alreadyClaimed)
    ∧ redeem_code_pg uid code now txnFail st = (st, .ret .alreadyClaimed) := by
  constructor
  · unfold redeem_code_sqlite; rw [if_pos h]
  · unfold redeem_code_pg; rw [if_pos h]

/-- A successful SQLite redemption records a Claim row for the pair. -/
theorem redeem_sqlite_granted_claimExists (uid : Int) (code : String)
    (now : Int) (txnFail : Option String) (st : Store) (a : Int)
    (h : (redeem_code_sqlite uid code now txnFail st).2 = .ret (.granted a)) :
    claimExists uid code ((redeem_code_sqlite uid code now txnFail st).1).claims
      = true := by
  revert h
  unfold redeem_code_sqlite
  split
  · intro h; exact absurd h (by simp)
  · split
    · intro h; exact absurd h (by simp)
    · split
      · intro h; exact absurd h (by simp)
      · split
        · intro h; exact absurd h (by simp)
        · split
          · intro h; exact absurd h (by simp)
          · split
            · intro h; exact absurd h (by simp)
            · intro _
              rw [sqliteClaimTxn_claims]
              exact claimExists_insert_self ⟨uid, code, now⟩ st.claims

/-- A successful PostgreSQL redemption records a Claim row for the
pair. -/
theorem redeem_pg_granted_claimExists (uid : Int) (code : String)
    (now : Int) (txnFail : Option String) (st : Store) (a : Int)
    (h : (redeem_code_pg uid code now txnFail st).2 = .ret (.granted a)) :
    claimExists uid code ((redeem_code_pg uid code now txnFail st).1).claims
      = true := by
  revert h
  unfold redeem_code_pg
  split
  · intro h; exact absurd h (by simp)
  · split
    · intro h; exact absurd h (by simp)
    · split
      · intro h; exact absurd h (by simp)
      · split
        · intro h; exact absurd h (by simp)
        · split
          · intro h; exact absurd h (by simp)
          · split
            · intro h; exact absurd h (by simp)
            · intro _
              rw [pgClaimTxn_claims]
              exact claimExists_insert_self ⟨uid, code, now⟩ st.claims

/-- The expiry test is true exactly on a set, positive duration whose
window has elapsed. -/
theorem isExpiredCheck_eq_true_iff (em : Option Int) (created now : Int) :
    isExpiredCheck em created now = true
      ↔ ∃ e, em = some e ∧ 0 < e ∧ created + e < now := by
  cases em with
  | none => simp [isExpiredCheck]
  | some e =>
      by_cases he : e > 0
      · simp [isExpiredCheck, he]
      · simp only [isExpiredCheck, if_neg he]
        constructor
        · intro hfalse; exact absurd hfalse (by simp)
        · rintro ⟨e', he', hpos, _⟩
          injection he' with he'
          subst he'
          exact absurd hpos he

/-- A parsed referrer is never the new user itself (self-referral is
discarded). -/
theorem parseReferrer_ne (uid : Int) (args : Option String) (r : Int)
    (h : parseReferrer uid args = some r) : r ≠ uid := by
  cases args with
  | none => simp [parseReferrer] at h
  | some s =>
      simp only [parseReferrer] at h
      split at h
      · split at h
        · simp at h
        · split at h
          · simp at h
          · split at h
            · simp at h
            · rename_i hne
              injection h with h
              subst h
              exact hne
      · simp at h

/-- If the SQLite branch reports "expired", the code row exists and its
expiry test is true. -/
theorem redeem_sqlite_expired_inv (uid : Int) (code : String) (now : Int)
    (txnFail : Option String) (st : Store)
    (h : (redeem_code_sqlite uid code now txnFail st).2 = .ret .expired) :
    ∃ r, st.codes code = some r
      ∧ isExpiredCheck r.expiryMinutes r.createdDate now = true := by
  revert h
  unfold redeem_code_sqlite
  split
  · intro h; exact absurd h (by simp)
  · split
    · intro h; exact absurd h (by simp)
    · rename_i data heq
      split
      · intro h; exact absurd h (by simp)
      · split
        · intro h; exact absurd h (by simp)
        · split
          · rename_i hexp
            intro _
            exact ⟨data, heq, hexp⟩
          · split
            · intro h; exact absurd h (by simp)
            · intro h; exact absurd h (by simp)

/-- If the PostgreSQL branch reports "expired", the code row exists and
its expiry test is true. -/
theorem redeem_pg_expired_inv (uid : Int) (code : String) (now : Int)
    (txnFail : Option String) (st : Store)
    (h : (redeem_code_pg uid code now txnFail st).2 = .ret .expired) :
    ∃ r, st.codes code = some r
      ∧ isExpiredCheck r.expiryMinutes r.createdDate now = true := by
  revert h
  unfold redeem_code_pg
  split
  · intro h; exact absurd h (by simp)
  · split
    · intro h; exact absurd h (by simp)
    · rename_i data heq
      split
      · intro h; exact absurd h (by simp)
      · split
        · intro h; exact absurd h (by simp)
        · split
          · rename_i hexp
            intro _
            exact ⟨data, heq, hexp⟩
          · split
            · intro h; exact absurd h (by simp)
            · intro h; exact absurd h (by simp)

/-- Creating a missing user inserts the row
(username, credits 5, joined now, referrer, not banned, 0 earned, active
now). -/
theorem add_user_inserts (uid : Int) (uname : Option String) (ref : Option Int)
    (now : Int) (st : Store) (h : st.users uid = none) :
    (add_user uid uname ref now st).users uid
      = some ⟨uname, 5, now, ref, 0, 0, now⟩ := by
  unfold add_user
  rw [h]
  simp

/-- Every core operation preserves uniqueness of (user_id, code) pairs
in the claims table. -/
theorem applyOp_claimsUnique (st : Store) (op : Op)
    (h : claimsUnique st.claims) : claimsUnique (applyOp op st).claims := by
  cases op with
  | addUser uid uname ref now =>
      simp only [applyOp]; rw [add_user_claims]; exact h
  | updateCredits uid amount =>
      simp only [applyOp]; rw [update_credits_claims]; exact h
  | setBan uid status => exact h
  | resetCredits uid => exact h
  | deleteUser uid => exact claimsUnique_filter _ _ h
  | createCode eng code amount maxUses em now => cases eng <;> exact h
  | redeem eng uid code now txnFail =>
      cases eng with
      | sqlite =>
          rcases redeem_sqlite_claims_cases uid code now txnFail st with hc | hc <;>
            simp only [applyOp] <;> rw [hc]
          · exact h
          · exact claimsUnique_insert _ _ h
      | pg =>
          rcases redeem_pg_claims_cases uid code now txnFail st with hc | hc <;>
            simp only [applyOp] <;> rw [hc]
          · exact h
          · exact claimsUnique_insert _ _ h
  | deactivateCode code => exact h
  | deleteCode code => exact h
  | bulkUpdate uids amount =>
      simp only [applyOp]; rw [bulk_update_credits_claims]; exact h
  | startRegister uid uname args now =>
      simp only [applyOp]; rw [start_register_claims]; exact h

/-! ### Claim theorems -/

/-- Claim C1 (code bug, embedded engine): redefining the existing code
"C" (claimed once: current_uses = 1) via the SQLite branch of
`create_redeem_code` resets current_uses to 0 instead of leaving it
unchanged, because `INSERT OR REPLACE` deletes the row and re-inserts it
without the `current_uses` column; the Claim rows are untouched, and the
PostgreSQL branch of the very same function preserves current_uses = 1,
matching the stated intent. -/
theorem c1_sqlite_redefinition_resets_uses :
    storeOneUsedCode.codes "C" = some ⟨5, 10, 1, none, 0, 1⟩
    ∧ (create_redeem_code_sqlite "C" 5 10 none 7 storeOneUsedCode).codes "C"
        = some ⟨5, 10, 0, none, 7, 1⟩
    ∧ (create_redeem_code_sqlite "C" 5 10 none 7 storeOneUsedCode).claims
        = storeOneUsedCode.claims
    ∧ (create_redeem_code_pg "C" 5 10 none 7 storeOneUsedCode).codes "C"
        = some ⟨5, 10, 1, none, 7, 1⟩ :=
  ⟨by decide, by decide, rfl, by decide⟩

/-- Claim C2 counterexample: on a store where code "C" exists with
current_uses = 1, the embedded and pooled implementations of
`create_redeem_code` produce different states (current_uses 0 vs 1), so
the two engines do not behave identically on every operation and
input. -/
theorem c2_counterexample_create_differs :
    (create_redeem_code_sqlite "C" 5 10 none 7 storeOneUsedCode).codes "C"
      ≠ (create_redeem_code_pg "C" 5 10 none 7 storeOneUsedCode).codes "C" := by
  decide

/-- Claim C2 (amended): the two engines agree on `create_redeem_code`
whenever the code does not already exist, and agree on `redeem_code_db`
whenever the claim transaction commits (they differ on redefinition of
an existing code and on a failing claim transaction). -/
theorem c2_engines_agree :
    (∀ code amount maxUses em now st, st.codes code = none →
      create_redeem_code_sqlite code amount maxUses em now st
        = create_redeem_code_pg code amount maxUses em now st)
    ∧ (∀ uid code now st,
        redeem_code_sqlite uid code now none st
          = redeem_code_pg uid code now none st) := by
  constructor
  · intro code amount maxUses em now st h
    unfold create_redeem_code_sqlite create_redeem_code_pg
    rw [h]
  · intro uid code now st
    by_cases h1 : claimExists uid code st.claims = true
    · simp [redeem_code_sqlite, redeem_code_pg, h1]
    · cases h2 : st.codes code with
      | none => simp [redeem_code_sqlite, redeem_code_pg, h1, h2]
      | some data =>
          by_cases h3 : data.isActive = 0
          · simp [redeem_code_sqlite, redeem_code_pg, h1, h2, h3]
          · by_cases h4 : data.currentUses ≥ data.maxUses
            · simp [redeem_code_sqlite, redeem_code_pg, h1, h2, h3, h4]
            · by_cases h5 :
                  isExpiredCheck data.expiryMinutes data.createdDate now = true
              · simp [redeem_code_sqlite, redeem_code_pg, h1, h2, h3, h4, h5]
              · simp [redeem_code_sqlite, redeem_code_pg, h1, h2, h3, h4, h5,
                  sqliteClaimTxn_eq_pgClaimTxn]

/-- Claim C2 witness: at a concrete fresh code the two engines produce
the same state. -/
theorem c2_engines_agree_witness :
    emptyStore.codes "D" = none
    ∧ create_redeem_code_sqlite "D" 5 10 none 7 emptyStore
        = create_redeem_code_pg "D" 5 10 none 7 emptyStore :=
  ⟨rfl, c2_engines_agree.1 "D" 5 10 none 7 emptyStore rfl⟩

/-- Claim C3 counterexample: after defining "C" with max_uses 2 on the
pooled engine, two successful claims, and a redefinition with max_uses 1
(which preserves current_uses = 2), the reachable state violates
current_uses <= max_uses. -/
theorem c3_counterexample_cap_violated :
    codeCapViolated (applySeq capBreakOps emptyStore) "C" = true
    ∧ ¬ codeCapInv (applySeq capBreakOps emptyStore) := by
  refine ⟨by decide, fun h => ?_⟩
  have h2 := h "C" ⟨10, 1, 2, none, 0, 1⟩ (by decide)
  exact absurd h2 (by decide)

/-- Claim C3 (amended): every core operation preserves the usage-cap
invariant current_uses <= max_uses, provided each code (re)definition
carries a non-negative max_uses that is, on the pooled engine, at least
the existing row's current_uses; without that proviso a redefinition can
violate the cap (see the counterexample). -/
theorem c3_cap_invariant_preserved (st : Store) (op : Op)
    (hInv : codeCapInv st) (hOk : opOk st op) : codeCapInv (applyOp op st) := by
  cases op with
  | addUser uid uname ref now =>
      intro c r hc
      simp only [applyOp] at hc
      rw [add_user_codes] at hc
      exact hInv _ _ hc
  | updateCredits uid amount =>
      intro c r hc
      simp only [applyOp] at hc
      rw [update_credits_codes] at hc
      exact hInv _ _ hc
  | setBan uid status => exact hInv
  | resetCredits uid => exact hInv
  | deleteUser uid => exact hInv
  | createCode eng code amount maxUses em now =>
      obtain ⟨hmax, hpg⟩ := hOk
      cases eng with
      | sqlite =>
          intro c r hc
          simp only [applyOp, create_redeem_code_sqlite] at hc
          split at hc
          · injection hc with hc
            subst hc
            exact hmax
          · exact hInv _ _ hc
      | pg =>
          intro c r hc
          simp only [applyOp, create_redeem_code_pg] at hc
          split at hc
          · injection hc with hc
            subst hc
            cases hsc : st.codes code with
            | none => exact hmax
            | some old => exact hpg rfl old hsc
          · exact hInv _ _ hc
  | redeem eng uid code now txnFail =>
      cases eng with
      | sqlite => exact redeem_sqlite_cap uid code now txnFail st hInv
      | pg => exact redeem_pg_cap uid code now txnFail st hInv
  | deactivateCode code =>
      intro c r hc
      simp only [applyOp, deactivate_code, updateCodeRow] at hc
      split at hc
      · cases hsc : st.codes c with
        | none => rw [hsc] at hc; exact absurd hc (by simp)
        | some old =>
            rw [hsc] at hc
            injection hc with hc
            subst hc
            exact hInv c old hsc
      · exact hInv _ _ hc
  | deleteCode code =>
      intro c r hc
      simp only [applyOp, delete_redeem_code] at hc
      split at hc
      · exact absurd hc (by simp)
      · exact hInv _ _ hc
  | bulkUpdate uids amount =>
      intro c r hc
      simp only [applyOp] at hc
      rw [bulk_update_credits_codes] at hc
      exact hInv _ _ hc
  | startRegister uid uname args now =>
      intro c r hc
      simp only [applyOp] at hc
      rw [start_register_codes] at hc
      exact hInv _ _ hc

/-- Claim C3 witness: the preservation theorem applied to a concrete
definition of a fresh code on the empty store. -/
theorem c3_cap_invariant_preserved_witness :
    codeCapInv emptyStore
    ∧ opOk emptyStore (Op.createCode Engine.sqlite "A" 5 3 none 0)
    ∧ codeCapInv (applyOp (Op.createCode Engine.sqlite "A" 5 3 none 0) emptyStore) := by
  have hInv : codeCapInv emptyStore := fun c r h => Option.noConfusion h
  have hOk : opOk emptyStore (Op.createCode Engine.sqlite "A" 5 3 none 0) :=
    ⟨by norm_num, fun hpg => absurd hpg (by decide)⟩
  exact ⟨hInv, hOk, c3_cap_invariant_preserved emptyStore _ hInv hOk⟩

/-- Claim C4: in every state reachable from the empty store, at most one
Claim row exists per (account, code) pair; a claim attempt by an account
that already holds a Claim row for the code returns "already_claimed"
under both engines and leaves the whole store (balances, counters,
current_uses) unchanged; and every successful redemption leaves a Claim
row in place, so a repeat attempt is rejected. -/
theorem c4_claim_at_most_once :
    (∀ ops, claimsUnique (applySeq ops emptyStore).claims)
    ∧ (∀ uid code now txnFail st, claimExists uid code st.claims = true →
        redeem_code_sqlite uid code now txnFail st = (st, .ret .alreadyClaimed)
        ∧ redeem_code_pg uid code now txnFail st = (st, .ret .alreadyClaimed))
    ∧ (∀ uid code now txnFail st a,
        (redeem_code_sqlite uid code now txnFail st).2 = .ret (.granted a) →
        claimExists uid code
          ((redeem_code_sqlite uid code now txnFail st).1).claims = true)
    ∧ (∀ uid code now txnFail st a,
        (redeem_code_pg uid code now txnFail st).2 = .ret (.granted a) →
        claimExists uid code
          ((redeem_code_pg uid code now txnFail st).1).claims = true) := by
  refine ⟨?_, fun uid code now txnFail st h =>
      redeem_already_claimed uid code now txnFail st h,
    fun uid code now txnFail st a h =>
      redeem_sqlite_granted_claimExists uid code now txnFail st a h,
    fun uid code now txnFail st a h =>
      redeem_pg_granted_claimExists uid code now txnFail st a h⟩
  intro ops
  have hgen : ∀ st, claimsUnique st.claims → claimsUnique (applySeq ops st).claims := by
    induction ops with
    | nil => exact fun st h => h
    | cons op rest ih => exact fun st h => ih _ (applyOp_claimsUnique st op h)
  exact hgen emptyStore List.Pairwise.nil

/-- Claim C4 witness: on a store already holding the claim (1, "C"), a
repeat attempt returns "already_claimed" with no state change. -/
theorem c4_claim_at_most_once_witness :
    claimExists 1 "C" storeOneClaim.claims = true
    ∧ redeem_code_sqlite 1 "C" 5 none storeOneClaim
        = (storeOneClaim, .ret .alreadyClaimed) :=
  ⟨by decide, (c4_claim_at_most_once.2.1 1 "C" 5 none storeOneClaim (by decide)).1⟩

/-- Claim C5: on an existing account, `update_credits` with a positive
amount adds the amount to both the balance and the lifetime-earned
counter; with a non-positive amount it adds the amount to the balance
only (the balance may go negative); no other field of any row
changes. -/
theorem c5_update_credits_spec (uid amount : Int) (st : Store) (r : UserRow)
    (h : st.users uid = some r) :
    (update_credits uid amount st).users uid
      = some { r with
               credits := r.credits + amount,
               totalEarned := r.totalEarned + (if 0 < amount then amount else 0) }
    ∧ (∀ j, j ≠ uid → (update_credits uid amount st).users j = st.users j)
    ∧ (update_credits uid amount st).codes = st.codes
    ∧ (update_credits uid amount st).claims = st.claims := by
  refine ⟨?_, fun j hj => update_credits_users_ne uid amount st j hj,
    update_credits_codes uid amount st, update_credits_claims uid amount st⟩
  unfold update_credits
  split
  · rename_i hpos
    simp [updateUserRow, h, hpos]
  · rename_i hneg
    simp [updateUserRow, h, hneg]

/-- Claim C5 witness: crediting 4 to user 7 of the concrete store adds
4 to both the balance and the lifetime-earned counter. -/
theorem c5_update_credits_spec_witness :
    storeUserAndCode.users 7 = some ⟨some "u", 5, 0, none, 0, 0, 0⟩
    ∧ (update_credits 7 4 storeUserAndCode).users 7
        = some ⟨some "u", 9, 0, none, 0, 4, 0⟩ := by
  refine ⟨rfl, ?_⟩
  have h :=
    (c5_update_credits_spec 7 4 storeUserAndCode ⟨some "u", 5, 0, none, 0, 0, 0⟩ rfl).1
  simpa using h

/-- Claim C6 counterexample: on the pooled engine a failing claim
transaction escapes as a raw exception (modelled by `PyResult.exn`)
rather than being returned as a tagged value, because the PostgreSQL
branch of `redeem_code_db` has no try/except around its transaction. -/
theorem c6_counterexample_pg_raises :
    (redeem_code_pg 7 "C" 0 (some "boom") storeUserAndCode).2
      = PyResult.exn "boom"
    ∧ (redeem_code_pg 7 "C" 0 (some "boom") storeUserAndCode).2.isTagged
        = false :=
  ⟨by decide, by decide⟩

/-- Claim C6 (amended): the embedded engine's claim operation always
returns a tagged value (never an escaped exception), and on a failing
transaction neither engine applies any of the claim's mutations (the
resulting state is exactly the input state) — but the pooled engine
signals the failure by letting the exception escape rather than by a
tagged return (see the counterexample). -/
theorem c6_failure_leaves_state (uid : Int) (code : String) (now : Int)
    (txnFail : Option String) (e : String) (st : Store) :
    (redeem_code_sqlite uid code now txnFail st).2.isTagged = true
    ∧ (redeem_code_sqlite uid code now (some e) st).1 = st
    ∧ (redeem_code_pg uid code now (some e) st).1 = st := by
  refine ⟨?_, ?_, ?_⟩
  · unfold redeem_code_sqlite
    split
    · rfl
    · split
      · rfl
      · split
        · rfl
        · split
          · rfl
          · split
            · rfl
            · split
              · rfl
              · rfl
  · unfold redeem_code_sqlite
    split
    · rfl
    · split
      · rfl
      · split
        · rfl
        · split
          · rfl
          · split
            · rfl
            · rfl
  · unfold redeem_code_pg
    split
    · rfl
    · split
      · rfl
      · split
        · rfl
        · split
          · rfl
          · split
            · rfl
            · rfl

/-- Claim C7: the expiry test used by both claim branches is true
exactly when the expiry duration is set and positive and the current
time is past creation plus duration; a claim against a code whose
duration is absent, zero, or negative is never rejected as expired; and
an "expired" result implies the code's set, positive duration had
elapsed. -/
theorem c7_expiry_semantics :
    (∀ em created now, isExpiredCheck em created now = true
        ↔ ∃ e, em = some e ∧ 0 < e ∧ created + e < now)
    ∧ (∀ uid code now txnFail st r, st.codes code = some r
        → (∀ e, r.expiryMinutes = some e → e ≤ 0)
        → (redeem_code_sqlite uid code now txnFail st).2 ≠ .ret .expired
          ∧ (redeem_code_pg uid code now txnFail st).2 ≠ .ret .expired)
    ∧ (∀ uid code now txnFail st,
        (redeem_code_sqlite uid code now txnFail st).2 = .ret .expired
        → ∃ r e, st.codes code = some r ∧ r.expiryMinutes = some e
            ∧ 0 < e ∧ r.createdDate + e < now)
    ∧ (∀ uid code now txnFail st,
        (redeem_code_pg uid code now txnFail st).2 = .ret .expired
        → ∃ r e, st.codes code = some r ∧ r.expiryMinutes = some e
            ∧ 0 < e ∧ r.createdDate + e < now) := by
  refine ⟨isExpiredCheck_eq_true_iff, ?_, ?_, ?_⟩
  · intro uid code now txnFail st r h hnp
    constructor
    · intro hres
      obtain ⟨r', hr', hchk⟩ :=
        redeem_sqlite_expired_inv uid code now txnFail st hres
      rw [h] at hr'
      injection hr' with hr'
      subst hr'
      obtain ⟨e1, he, hpos, _⟩ := (isExpiredCheck_eq_true_iff _ _ _).1 hchk
      exact absurd hpos (not_lt.2 (hnp e1 he))
    · intro hres
      obtain ⟨r', hr', hchk⟩ :=
        redeem_pg_expired_inv uid code now txnFail st hres
      rw [h] at hr'
      injection hr' with hr'
      subst hr'
      obtain ⟨e, he, hpos, _⟩ := (isExpiredCheck_eq_true_iff _ _ _).1 hchk
      exact absurd hpos (not_lt.2 (hnp e he))
  · intro uid code now txnFail st hres
    obtain ⟨r, hr, hchk⟩ := redeem_sqlite_expired_inv uid code now txnFail st hres
    obtain ⟨e, he, hpos, hlt⟩ := (isExpiredCheck_eq_true_iff _ _ _).1 hchk
    exact ⟨r, e, hr, he, hpos, hlt⟩
  · intro uid code now txnFail st hres
    obtain ⟨r, hr, hchk⟩ := redeem_pg_expired_inv uid code now txnFail st hres
    obtain ⟨e, he, hpos, hlt⟩ := (isExpiredCheck_eq_true_iff _ _ _).1 hchk
    exact ⟨r, e, hr, he, hpos, hlt⟩

/-- Claim C7 witness: code "C" has no expiry duration, so even at a very
late clock value a claim on it is not rejected as expired. -/
theorem c7_expiry_semantics_witness :
    storeUserAndCode.codes "C" = some ⟨5, 10, 0, none, 0, 1⟩
    ∧ (redeem_code_sqlite 1 "C" 999999 none storeUserAndCode).2
        ≠ .ret .expired :=
  ⟨rfl, (c7_expiry_semantics.2.1 1 "C" 999999 none storeUserAndCode
      ⟨5, 10, 0, none, 0, 1⟩ rfl (fun _ he => Option.noConfusion he)).1⟩

/-- Claim C8: deleting an account removes its user row, removes exactly
its Claim rows, nulls the referrer field of every remaining account that
referenced it, and leaves every other field of every other account — and
the whole codes table — unchanged. -/
theorem c8_delete_user_spec (uid : Int) (st : Store) :
    (delete_user uid st).users uid = none
    ∧ (∀ j r, j ≠ uid → st.users j = some r →
        (delete_user uid st).users j
          = some (if r.referrerId = some uid then { r with referrerId := none }
                  else r))
    ∧ (delete_user uid st).claims
        = st.claims.filter (fun cl => !(cl.userId == uid))
    ∧ (delete_user uid st).codes = st.codes := by
  refine ⟨?_, ?_, rfl, rfl⟩
  · simp [delete_user]
  · intro j r hj hr
    simp [delete_user, hj, hr]

/-- Claim C8 witness: deleting user 1 clears user 2's referrer link and
keeps user 2's balances. -/
theorem c8_delete_user_spec_witness :
    ((2 : Int) ≠ 1)
    ∧ storeTwoUsers.users 2 = some ⟨some "b", 8, 0, some 1, 0, 3, 0⟩
    ∧ (delete_user 1 storeTwoUsers).users 2
        = some (if (⟨some "b", 8, 0, some 1, 0, 3, 0⟩ : UserRow).referrerId = some 1
                then { (⟨some "b", 8, 0, some 1, 0, 3, 0⟩ : UserRow) with
                       referrerId := none }
                else ⟨some "b", 8, 0, some 1, 0, 3, 0⟩) :=
  ⟨by decide, rfl,
    (c8_delete_user_spec 1 storeTwoUsers).2.1 2 ⟨some "b", 8, 0, some 1, 0, 3, 0⟩
      (by decide) rfl⟩

/-- Claim C9: creating a missing account inserts it with a balance of
exactly 5 credits, a lifetime-earned counter of exactly 0, and the ban
flag cleared (the row is (username, 5, now, referrer, 0, 0, now)). -/
theorem c9_new_account_defaults (uid : Int) (uname : Option String)
    (ref : Option Int) (now : Int) (st : Store) (h : st.users uid = none) :
    (add_user uid uname ref now st).users uid
      = some ⟨uname, 5, now, ref, 0, 0, now⟩ :=
  add_user_inserts uid uname ref now st h

/-- Claim C9 witness: registering user 1 on the empty store. -/
theorem c9_new_account_defaults_witness :
    (add_user 1 (some "u") none 0 emptyStore).users 1
      = some ⟨some "u", 5, 0, none, 0, 0, 0⟩ :=
  c9_new_account_defaults 1 (some "u") none 0 emptyStore rfl

/-- Claim C10: when the start-command registration path parses a
referrer id for which no account row exists, the new user's row is
created (recording that referrer id) but the referral bonus is silently
lost: no row is created for the referrer, no other row changes, and no
error is reported (the operation is total). -/
theorem c10_missing_referrer_bonus_lost (uid : Int) (uname : Option String)
    (s : String) (r : Int) (now : Int) (st : Store)
    (h0 : st.users uid = none) (h1 : parseReferrer uid (some s) = some r)
    (h2 : st.users r = none) :
    (start_register uid uname (some s) now st).users r = none
    ∧ (∀ j, j ≠ uid → (start_register uid uname (some s) now st).users j
        = st.users j)
    ∧ (start_register uid uname (some s) now st).users uid
        = some ⟨uname, 5, now, some r, 0, 0, now⟩
    ∧ (start_register uid uname (some s) now st).codes = st.codes
    ∧ (start_register uid uname (some s) now st).claims = st.claims := by
  have hru : r ≠ uid := parseReferrer_ne uid (some s) r h1
  have haddr : (add_user uid uname (some r) now st).users r = none := by
    rw [add_user_users_ne uid uname (some r) now st r hru]
    exact h2
  have hform : start_register uid uname (some s) now st
      = add_user uid uname (some r) now st := by
    simp only [start_register, h0, h1]
    split
    · rfl
    · exact update_credits_absent r 3 _ haddr
  refine ⟨?_, ?_, ?_, ?_, ?_⟩
  · rw [hform]; exact haddr
  · intro j hj
    rw [hform]
    exact add_user_users_ne uid uname (some r) now st j hj
  · rw [hform]
    exact add_user_inserts uid uname (some r) now st h0
  · rw [hform]
    exact add_user_codes uid uname (some r) now st
  · rw [hform]
    exact add_user_claims uid uname (some r) now st

/-- Claim C10 witness: user 1 registers via deep link "ref_77" while no
account 77 exists; account 77 is still absent afterwards. -/
theorem c10_missing_referrer_bonus_lost_witness :
    parseReferrer 1 (some "ref_77") = some 77
    ∧ (start_register 1 (some "u") (some "ref_77") 0 emptyStore).users 77
        = none :=
  ⟨by decide,
    (c10_missing_referrer_bonus_lost 1 (some "u") "ref_77" 77 0 emptyStore
      rfl (by decide) rfl).1⟩

end OsintBot
